import Mathlib

/-!
Shallow embedding of the educational multi-agent pipeline of
`src/back-end/src/agents`: the Pydantic schemas (`models/schemas.py`), the
three stage wrappers (`core/code_generator.py`, `core/line_explainer.py`,
`core/code_chunker.py`), the orchestrator (`core/orchestrator.py`) and the
`POST /api/v1/generate` handler (`server.py`).

The external model call of each stage is modelled as an oracle value of type
`Except String α`: `.ok out` is the structured output the call produced after
schema validation (the `isinstance`/dict-reconstruction at the call boundary
always yields a schema-valid value or raises, per the design notes), and
`.error e` is any failure of the underlying call, carrying `str(e)`.
Wall-clock readings of `time.time()` are passed in explicitly as rationals,
and the `uuid.uuid4()` request id and `datetime.now().isoformat()` timestamp
are passed in as strings.
-/

namespace Tutor

/-- `CodeGenerationRequest` (`models/schemas.py`): required prompt, language
defaulting to `"python"`, optional context. -/
structure CodeGenerationRequest where
  prompt : String
  language : String := "python"
  context : Option String := none
deriving DecidableEq, Repr

/-- `CodeGenerationOutput` (`models/schemas.py`, 1.json format). -/
structure CodeGenerationOutput where
  date : String
  language : String
  code : String
deriving DecidableEq, Repr

/-- `CodeLine` (`models/schemas.py`, 2.json format): one line with an
optional explanation (`None` expected for blank lines). -/
structure CodeLine where
  line : Int
  line_code : String
  line_explanation : Option String := none
deriving DecidableEq, Repr

/-- `LineExplanationOutput` (`models/schemas.py`, 2.json format). -/
structure LineExplanationOutput where
  date : String
  language : String
  code : List CodeLine
  explanation : String
deriving DecidableEq, Repr

/-- `CodeChunk` (`models/schemas.py`, 3.json format). -/
structure CodeChunk where
  first_line : Int
  last_line : Int
  line_code : String
  line_explanation : Option String := none
deriving DecidableEq, Repr

/-- `CodeChunkOutput` (`models/schemas.py`, 3.json format). -/
structure CodeChunkOutput where
  date : String
  language : String
  code : List CodeChunk
  explanation : String
deriving DecidableEq, Repr

/-- `OrchestratorResponse` (`models/schemas.py`): the final composite
response of a successful pipeline run. -/
structure OrchestratorResponse where
  request_id : String
  generated_code : CodeGenerationOutput
  line_explanations : LineExplanationOutput
  chunked_code : CodeChunkOutput
  processing_time_seconds : ℚ
  status : String := "success"
deriving DecidableEq, Repr

/-- `validate_line_numbers` (`models/schemas.py`): `all(chunk.first_line <=
chunk.last_line for chunk in chunks)`.  No module under `src/` ever calls
this helper. -/
def validate_line_numbers (chunks : List CodeChunk) : Bool :=
  chunks.all fun chunk => chunk.first_line ≤ chunk.last_line

/-- Python `round(x, 2)`, over exact rationals: round `100 * x` to the
nearest integer and divide back (the model ignores binary-float tie
behaviour, which no claim depends on). -/
def round2 (q : ℚ) : ℚ := (round (q * 100) : ℚ) / 100

/-- Zero-pad a two-digit fractional part. -/
def pad2 (n : ℕ) : String := if n < 10 then "0" ++ toString n else toString n

/-- Python `f"{x:.2f}"` formatting, over exact rationals. -/
def fmt2 (q : ℚ) : String :=
  let n : ℤ := round (q * 100)
  (if n < 0 then "-" else "") ++ toString (n.natAbs / 100) ++ "." ++ pad2 (n.natAbs % 100)

/-- The whitespace characters stripped by Python `str.strip()` (ASCII part;
the claims only exercise these). -/
def isPyWhitespace (c : Char) : Bool :=
  c = ' ' || c = '\t' || c = '\n' || c = '\x0d' || c = '\x0b' || c = '\x0c'

/-- Python `s.strip()`: drop leading and trailing whitespace. -/
def pyStrip (s : String) : String :=
  ⟨((s.data.dropWhile isPyWhitespace).reverse.dropWhile isPyWhitespace).reverse⟩

/-- Python `s.split('\n')` at the character-list level: splitting an empty
string gives one empty segment, every `'\n'` starts a new segment. -/
def splitLines : List Char → List (List Char)
  | [] => [[]]
  | c :: cs =>
    if c = '\n' then [] :: splitLines cs
    else
      match splitLines cs with
      | [] => [[c]]
      | h :: t => (c :: h) :: t

/-- `LineExplainerAgent._build_prompt` (`core/line_explainer.py`): the line
count it computes with `lines = code_output.code.split('\n')` and announces
as `f"The code has {len(lines)} line(s) total."`. -/
def expectedLineCount (code_output : CodeGenerationOutput) : ℕ :=
  (splitLines code_output.code.data).length

/-- The sentence `_build_prompt` appends to the stage-2 instruction. -/
def lineCountSentence (code_output : CodeGenerationOutput) : String :=
  "The code has " ++ toString (expectedLineCount code_output) ++ " line(s) total."

/-- `CodeGeneratorAgent.generate_code` (`core/code_generator.py`).
`current_date` is the `datetime.now().isoformat()` reading captured at the
start of the call; `model` is the outcome of `self.agent.run(prompt)`
together with the content extraction.  Post-processing: fill in the date
when the model left it falsy (empty), and overwrite the language with the
request's when they differ; any failure is wrapped with the
`"Code generation failed: "` prefix. -/
def generate_code (request : CodeGenerationRequest) (current_date : String)
    (model : Except String CodeGenerationOutput) : Except String CodeGenerationOutput :=
  match model with
  | .error e => .error ("Code generation failed: " ++ e)
  | .ok output =>
    let output := if output.date = "" then { output with date := current_date } else output
    let output :=
      if output.language ≠ request.language then { output with language := request.language }
      else output
    .ok output

/-- `CodeGeneratorAgent.agenerate_code` (`core/code_generator.py`): same
body as the sync variant, with the `"Async code generation failed: "`
error prefix. -/
def agenerate_code (request : CodeGenerationRequest) (current_date : String)
    (model : Except String CodeGenerationOutput) : Except String CodeGenerationOutput :=
  match model with
  | .error e => .error ("Async code generation failed: " ++ e)
  | .ok output =>
    let output := if output.date = "" then { output with date := current_date } else output
    let output :=
      if output.language ≠ request.language then { output with language := request.language }
      else output
    .ok output

/-- `LineExplainerAgent.explain_code` (`core/line_explainer.py`): pass the
model's structured output through, overwriting only `date` and `language`
with the values carried from the generation stage. -/
def explain_code (code_output : CodeGenerationOutput)
    (model : Except String LineExplanationOutput) : Except String LineExplanationOutput :=
  match model with
  | .error e => .error ("Line explanation failed: " ++ e)
  | .ok output => .ok { output with date := code_output.date, language := code_output.language }

/-- `LineExplainerAgent.aexplain_code` (`core/line_explainer.py`). -/
def aexplain_code (code_output : CodeGenerationOutput)
    (model : Except String LineExplanationOutput) : Except String LineExplanationOutput :=
  match model with
  | .error e => .error ("Async line explanation failed: " ++ e)
  | .ok output => .ok { output with date := code_output.date, language := code_output.language }

/-- `CodeChunkerAgent.chunk_code` (`core/code_chunker.py`): pass the model's
structured output through, overwriting `date`, `language` and the overall
`explanation` with the values carried from the explanation stage. -/
def chunk_code (line_output : LineExplanationOutput)
    (model : Except String CodeChunkOutput) : Except String CodeChunkOutput :=
  match model with
  | .error e => .error ("Code chunking failed: " ++ e)
  | .ok output =>
    .ok { output with
            date := line_output.date
            language := line_output.language
            explanation := line_output.explanation }

/-- `CodeChunkerAgent.achunk_code` (`core/code_chunker.py`). -/
def achunk_code (line_output : LineExplanationOutput)
    (model : Except String CodeChunkOutput) : Except String CodeChunkOutput :=
  match model with
  | .error e => .error ("Async code chunking failed: " ++ e)
  | .ok output =>
    .ok { output with
            date := line_output.date
            language := line_output.language
            explanation := line_output.explanation }

/-- The three pipeline stages, used to record which external calls an
orchestrator run issued (each list entry is one issued call, in order). -/
inductive Stage where
  | generation
  | explanation
  | chunking
deriving DecidableEq, Repr

/-- One run's worth of external-model outcomes: what each stage's
`agent.run`/`agent.arun` call would produce if issued. -/
structure Oracles where
  genResult : Except String CodeGenerationOutput
  explResult : Except String LineExplanationOutput
  chunkResult : Except String CodeChunkOutput

/-- `OrchestratorAgent.process_request` (`core/orchestrator.py`).
`start_time` is the `time.time()` reading taken at entry and `end_time` the
reading taken at the end (in the `except` handler on failure, before
building the response on success); `request_id` is the fresh
`str(uuid.uuid4())`.  Returns the outcome together with the trace of stage
calls actually issued. -/
def process_request (request : CodeGenerationRequest) (request_id current_date : String)
    (oracles : Oracles) (start_time end_time : ℚ) :
    Except String OrchestratorResponse × List Stage :=
  match generate_code request current_date oracles.genResult with
  | .error e =>
    (.error ("Orchestration failed after " ++ fmt2 (end_time - start_time) ++ "s: " ++ e),
     [Stage.generation])
  | .ok code_output =>
    match explain_code code_output oracles.explResult with
    | .error e =>
      (.error ("Orchestration failed after " ++ fmt2 (end_time - start_time) ++ "s: " ++ e),
       [Stage.generation, Stage.explanation])
    | .ok line_output =>
      match chunk_code line_output oracles.chunkResult with
      | .error e =>
        (.error ("Orchestration failed after " ++ fmt2 (end_time - start_time) ++ "s: " ++ e),
         [Stage.generation, Stage.explanation, Stage.chunking])
      | .ok chunk_output =>
        (.ok { request_id := request_id
               generated_code := code_output
               line_explanations := line_output
               chunked_code := chunk_output
               processing_time_seconds := round2 (end_time - start_time)
               status := "success" },
         [Stage.generation, Stage.explanation, Stage.chunking])

/-- `OrchestratorAgent.aprocess_request` (`core/orchestrator.py`): the async
variant, calling the async stage wrappers and using the
`"Async orchestration failed after ...s: "` prefix. -/
def aprocess_request (request : CodeGenerationRequest) (request_id current_date : String)
    (oracles : Oracles) (start_time end_time : ℚ) :
    Except String OrchestratorResponse × List Stage :=
  match agenerate_code request current_date oracles.genResult with
  | .error e =>
    (.error ("Async orchestration failed after " ++ fmt2 (end_time - start_time) ++ "s: " ++ e),
     [Stage.generation])
  | .ok code_output =>
    match aexplain_code code_output oracles.explResult with
    | .error e =>
      (.error ("Async orchestration failed after " ++ fmt2 (end_time - start_time) ++ "s: " ++ e),
       [Stage.generation, Stage.explanation])
    | .ok line_output =>
      match achunk_code line_output oracles.chunkResult with
      | .error e =>
        (.error ("Async orchestration failed after " ++ fmt2 (end_time - start_time) ++ "s: " ++ e),
         [Stage.generation, Stage.explanation, Stage.chunking])
      | .ok chunk_output =>
        (.ok { request_id := request_id
               generated_code := code_output
               line_explanations := line_output
               chunked_code := chunk_output
               processing_time_seconds := round2 (end_time - start_time)
               status := "success" },
         [Stage.generation, Stage.explanation, Stage.chunking])

/-- Outcome of one HTTP call to the API: either a 200 with the full
`OrchestratorResponse`, or an error status with a detail string. -/
inductive HttpResult where
  | ok (resp : OrchestratorResponse)
  | httpError (status : Nat) (detail : String)
deriving DecidableEq, Repr

/-- The body of a `POST /api/v1/generate` call before schema validation:
each field may be present or absent. -/
structure RawBody where
  prompt : Option String := none
  language : Option String := none
  context : Option String := none

/-- FastAPI/Pydantic validation of `CodeGenerationRequest`
(`models/schemas.py`): `prompt` is a required field, so a body lacking it
is rejected with a 422 before the handler runs; `language` defaults to
`"python"`. -/
def parseRequest (body : RawBody) : Except Nat CodeGenerationRequest :=
  match body.prompt with
  | none => .error 422
  | some p => .ok { prompt := p, language := body.language.getD "python", context := body.context }

/-- `generate_educational_code` (`server.py`): reject an empty or
whitespace-only prompt with a 400 before calling the orchestrator
(`if not request.prompt or len(request.prompt.strip()) == 0`); otherwise
pass the orchestrator's outcome through, wrapping any failure into a 500
with the `"Code generation failed: "` prefix. -/
def generate_educational_code (request : CodeGenerationRequest)
    (orchestration : Except String OrchestratorResponse) : HttpResult :=
  if request.prompt = "" ∨ pyStrip request.prompt = "" then
    .httpError 400 "Prompt cannot be empty"
  else
    match orchestration with
    | .ok response => .ok response
    | .error e => .httpError 500 ("Code generation failed: " ++ e)

/-- The full `POST /api/v1/generate` path: schema validation of the raw
body, then the handler, which invokes `aprocess_request`. -/
def postGenerate (body : RawBody) (request_id current_date : String)
    (oracles : Oracles) (start_time end_time : ℚ) : HttpResult :=
  match parseRequest body with
  | .error status => .httpError status "Field required"
  | .ok request =>
    generate_educational_code request
      (aprocess_request request request_id current_date oracles start_time end_time).1

/-! ### Helper lemmas -/

lemma generate_code_ok (request : CodeGenerationRequest) (current_date : String)
    (m : CodeGenerationOutput) :
    generate_code request current_date (.ok m) =
      .ok ⟨if m.date = "" then current_date else m.date, request.language, m.code⟩ := by
  cases m with
  | mk md ml mc =>
    simp only [generate_code]
    split_ifs <;> simp_all

lemma agenerate_code_ok (request : CodeGenerationRequest) (current_date : String)
    (m : CodeGenerationOutput) :
    agenerate_code request current_date (.ok m) =
      .ok ⟨if m.date = "" then current_date else m.date, request.language, m.code⟩ := by
  cases m with
  | mk md ml mc =>
    simp only [agenerate_code]
    split_ifs <;> simp_all

lemma explain_code_ok (code_output : CodeGenerationOutput) (m : LineExplanationOutput) :
    explain_code code_output (.ok m) =
      .ok ⟨code_output.date, code_output.language, m.code, m.explanation⟩ := rfl

lemma aexplain_code_ok (code_output : CodeGenerationOutput) (m : LineExplanationOutput) :
    aexplain_code code_output (.ok m) =
      .ok ⟨code_output.date, code_output.language, m.code, m.explanation⟩ := rfl

lemma chunk_code_ok (line_output : LineExplanationOutput) (m : CodeChunkOutput) :
    chunk_code line_output (.ok m) =
      .ok ⟨line_output.date, line_output.language, m.code, line_output.explanation⟩ := rfl

lemma achunk_code_ok (line_output : LineExplanationOutput) (m : CodeChunkOutput) :
    achunk_code line_output (.ok m) =
      .ok ⟨line_output.date, line_output.language, m.code, line_output.explanation⟩ := rfl

lemma generate_code_err (request : CodeGenerationRequest) (current_date e : String) :
    generate_code request current_date (.error e) =
      .error ("Code generation failed: " ++ e) := rfl

lemma agenerate_code_err (request : CodeGenerationRequest) (current_date e : String) :
    agenerate_code request current_date (.error e) =
      .error ("Async code generation failed: " ++ e) := rfl

lemma explain_code_err (code_output : CodeGenerationOutput) (e : String) :
    explain_code code_output (.error e) = .error ("Line explanation failed: " ++ e) := rfl

lemma aexplain_code_err (code_output : CodeGenerationOutput) (e : String) :
    aexplain_code code_output (.error e) =
      .error ("Async line explanation failed: " ++ e) := rfl

lemma chunk_code_err (line_output : LineExplanationOutput) (e : String) :
    chunk_code line_output (.error e) = .error ("Code chunking failed: " ++ e) := rfl

lemma achunk_code_err (line_output : LineExplanationOutput) (e : String) :
    achunk_code line_output (.error e) = .error ("Async code chunking failed: " ++ e) := rfl

lemma splitLines_ne_nil (l : List Char) : splitLines l ≠ [] := by
  induction l with
  | nil => simp [splitLines]
  | cons c cs ih =>
    simp only [splitLines]
    split
    · simp
    · cases h : splitLines cs with
      | nil => exact absurd h ih
      | cons hd tl => simp

lemma splitLines_length (l : List Char) : (splitLines l).length = l.count '\n' + 1 := by
  induction l with
  | nil => rfl
  | cons c cs ih =>
    by_cases hc : c = '\n'
    · simp [splitLines, hc, List.count_cons, ih]
    · cases h : splitLines cs with
      | nil => exact absurd h (splitLines_ne_nil cs)
      | cons hd tl =>
        rw [h] at ih
        simp [splitLines, hc, h, List.count_cons, Ne.symm hc, ← ih]

lemma round_nonneg_of_nonneg (q : ℚ) (h : 0 ≤ q) : (0 : ℤ) ≤ round q := by
  rw [round_eq]
  refine Int.le_floor.mpr ?_
  push_cast
  linarith

lemma round2_nonneg (q : ℚ) (h : 0 ≤ q) : 0 ≤ round2 q := by
  unfold round2
  refine div_nonneg ?_ (by norm_num)
  exact_mod_cast round_nonneg_of_nonneg (q * 100) (by positivity)

/-! ### Concrete data used by witnesses and counterexamples -/

/-- A request with all-default optional fields (`language = "python"`). -/
def wreq : CodeGenerationRequest := { prompt := "add two numbers" }

/-- A successful run in which the model omitted the date and guessed the
wrong language in stage 1, and returned divergent metadata in stages 2
and 3. -/
def woracles : Oracles :=
  { genResult := .ok ⟨"", "java", "x = 1\ny = 2"⟩
    explResult := .ok ⟨"model-date", "guess",
      [⟨1, "x = 1", some "assign x"⟩, ⟨2, "y = 2", some "assign y"⟩], "assigns"⟩
    chunkResult := .ok ⟨"other", "other", [⟨1, 2, "x = 1\ny = 2", some "both"⟩], "ignored"⟩ }

/-- The response the pipeline produces from `wreq`/`woracles` with clock
readings 0 and 1. -/
def wresp : OrchestratorResponse :=
  { request_id := "rid"
    generated_code := ⟨"2025-01-01T00:00:00", "python", "x = 1\ny = 2"⟩
    line_explanations := ⟨"2025-01-01T00:00:00", "python",
      [⟨1, "x = 1", some "assign x"⟩, ⟨2, "y = 2", some "assign y"⟩], "assigns"⟩
    chunked_code := ⟨"2025-01-01T00:00:00", "python", [⟨1, 2, "x = 1\ny = 2", some "both"⟩],
      "assigns"⟩
    processing_time_seconds := round2 (1 - 0)
    status := "success" }

/-- Oracles whose chunking stage returns an inverted line range
(`first_line > last_line`), which `validate_line_numbers` rejects. -/
def c9oracles : Oracles :=
  { genResult := .ok ⟨"2025-01-01T00:00:00", "python", "x = 1"⟩
    explResult := .ok ⟨"", "", [⟨1, "x = 1", some "assign"⟩], "assigns x"⟩
    chunkResult := .ok ⟨"", "", [⟨7, 2, "x = 1", some "inverted range"⟩], ""⟩ }

/-- The successful response of the `c9oracles` run: its chunk list fails
`validate_line_numbers`, yet no operation ever ran that check. -/
def c9resp : OrchestratorResponse :=
  { request_id := "rid"
    generated_code := ⟨"2025-01-01T00:00:00", "python", "x = 1"⟩
    line_explanations := ⟨"2025-01-01T00:00:00", "python", [⟨1, "x = 1", some "assign"⟩],
      "assigns x"⟩
    chunked_code := ⟨"2025-01-01T00:00:00", "python", [⟨7, 2, "x = 1", some "inverted range"⟩],
      "assigns x"⟩
    processing_time_seconds := round2 (1 - 0)
    status := "success" }

/-! ### Claim theorems -/

/-- C5: stage-1 post-processing.  For every model output accepted by the
schema, both `generate_code` and `agenerate_code` return it with the date
replaced by the stage's captured current time exactly when the model's date
was falsy (empty), the language always equal to the request's language, and
the code text untouched. -/
theorem generation_postprocessing (request : CodeGenerationRequest) (current_date : String)
    (m : CodeGenerationOutput) :
    generate_code request current_date (.ok m) =
      .ok ⟨if m.date = "" then current_date else m.date, request.language, m.code⟩ ∧
    agenerate_code request current_date (.ok m) =
      .ok ⟨if m.date = "" then current_date else m.date, request.language, m.code⟩ :=
  ⟨generate_code_ok request current_date m, agenerate_code_ok request current_date m⟩

/-- C6: frame property of stages 2 and 3.  For every model output accepted
by the stage's schema — including line lists and chunk lists violating the
1..N sequencing or contiguous-coverage properties, since `m` and `mc` are
arbitrary — `explain_code`/`aexplain_code` and `chunk_code`/`achunk_code`
pass the model's `code` list to the caller verbatim and overwrite only the
pinned metadata (`date`, `language`, and for chunking also `explanation`). -/
theorem stage_outputs_passed_through (code_output : CodeGenerationOutput)
    (m : LineExplanationOutput) (line_output : LineExplanationOutput) (mc : CodeChunkOutput) :
    explain_code code_output (.ok m) =
      .ok ⟨code_output.date, code_output.language, m.code, m.explanation⟩ ∧
    aexplain_code code_output (.ok m) =
      .ok ⟨code_output.date, code_output.language, m.code, m.explanation⟩ ∧
    chunk_code line_output (.ok mc) =
      .ok ⟨line_output.date, line_output.language, mc.code, line_output.explanation⟩ ∧
    achunk_code line_output (.ok mc) =
      .ok ⟨line_output.date, line_output.language, mc.code, line_output.explanation⟩ :=
  ⟨rfl, rfl, rfl, rfl⟩

/-- C9: `validate_line_numbers` returns `true` exactly when every chunk has
`first_line ≤ last_line`; it accepts the empty list vacuously and accepts
out-of-order, overlapping, non-covering chunk lists.  The final conjuncts
show that no pipeline operation gates on it: a run whose chunk output fails
`validate_line_numbers` still completes successfully (and indeed no
definition of this development, mirroring `src/`, ever calls it). -/
theorem validate_line_numbers_spec :
    (∀ chunks : List CodeChunk,
       validate_line_numbers chunks = true ↔
         ∀ chunk ∈ chunks, chunk.first_line ≤ chunk.last_line) ∧
    validate_line_numbers [] = true ∧
    validate_line_numbers [⟨5, 9, "", none⟩, ⟨1, 3, "", none⟩, ⟨2, 6, "", none⟩] = true ∧
    (aprocess_request wreq "rid" "2025-01-01T00:00:00" c9oracles 0 1).1 = .ok c9resp ∧
    validate_line_numbers c9resp.chunked_code.code = false := by
  refine ⟨?_, rfl, by decide, rfl, by decide⟩
  intro chunks
  simp [validate_line_numbers, List.all_eq_true]

/-- C10: the line count `LineExplainerAgent._build_prompt` computes from
`code_output.code.split('\n')` and embeds in its instruction equals the
number of `'\n'` occurrences in the code text plus one, and is 1 (never 0)
for an empty code string. -/
theorem expected_line_count_spec :
    (∀ code_output : CodeGenerationOutput,
       expectedLineCount code_output = code_output.code.data.count '\n' + 1) ∧
    (∀ d lang : String, expectedLineCount ⟨d, lang, ""⟩ = 1) ∧
    (∀ code_output : CodeGenerationOutput,
       lineCountSentence code_output =
         "The code has " ++ toString (code_output.code.data.count '\n' + 1) ++
           " line(s) total.") := by
  have hmain : ∀ code_output : CodeGenerationOutput,
      expectedLineCount code_output = code_output.code.data.count '\n' + 1 :=
    fun code_output => splitLines_length code_output.code.data
  refine ⟨hmain, fun d lang => rfl, fun code_output => ?_⟩
  rw [lineCountSentence, hmain]

/-- C1: pinned metadata.  On every successful run of either orchestrator,
whatever the external model returned for these fields, the three stage
outputs agree: all three languages equal the request's language, the
explanation's and chunking's dates equal the generation date, and the
chunking's overall explanation equals the explanation stage's. -/
theorem pipeline_pins_metadata (request : CodeGenerationRequest)
    (request_id current_date : String) (oracles : Oracles) (t0 t1 : ℚ)
    (resp : OrchestratorResponse)
    (h : (process_request request request_id current_date oracles t0 t1).1 = .ok resp ∨
         (aprocess_request request request_id current_date oracles t0 t1).1 = .ok resp) :
    resp.generated_code.language = request.language ∧
    resp.line_explanations.language = request.language ∧
    resp.chunked_code.language = request.language ∧
    resp.line_explanations.date = resp.generated_code.date ∧
    resp.chunked_code.date = resp.generated_code.date ∧
    resp.chunked_code.explanation = resp.line_explanations.explanation := by
  rcases hg : oracles.genResult with eg | g <;>
    rcases he : oracles.explResult with ee | l <;>
      rcases hc : oracles.chunkResult with ec | c <;>
        rcases h with h | h <;>
          simp only [process_request, aprocess_request, generate_code_ok, agenerate_code_ok,
            generate_code_err, agenerate_code_err, explain_code_ok, aexplain_code_ok,
            explain_code_err, aexplain_code_err, chunk_code_ok, achunk_code_ok,
            chunk_code_err, achunk_code_err, hg, he, hc] at h <;>
          simp only [reduceCtorEq, Except.ok.injEq] at h <;>
          subst h <;> simp

/-- C1 witness: a concrete successful run (sync orchestrator, model output
with missing date and divergent languages) satisfying the pinned-metadata
invariant. -/
theorem pipeline_pins_metadata_witness :
    ((process_request wreq "rid" "2025-01-01T00:00:00" woracles 0 1).1 = .ok wresp ∨
     (aprocess_request wreq "rid" "2025-01-01T00:00:00" woracles 0 1).1 = .ok wresp) ∧
    (wresp.generated_code.language = wreq.language ∧
     wresp.line_explanations.language = wreq.language ∧
     wresp.chunked_code.language = wreq.language ∧
     wresp.line_explanations.date = wresp.generated_code.date ∧
     wresp.chunked_code.date = wresp.generated_code.date ∧
     wresp.chunked_code.explanation = wresp.line_explanations.explanation) :=
  ⟨Or.inl rfl,
   pipeline_pins_metadata wreq "rid" "2025-01-01T00:00:00" woracles 0 1 wresp (Or.inl rfl)⟩

/-- C2: fail-fast orchestration.  Whenever a stage call fails, both
orchestrators issue no further stage calls (the trace lists each earlier
stage exactly once and the failed stage last — no retry, no remaining
stages), return no partial outputs (the outcome is a single `.error`), and
the single error message is the elapsed-time wrapper around the failing
stage's wrapped error text, so it contains both `fmt2` of the elapsed time
and the stage's error text. -/
theorem orchestrator_fail_fast (request : CodeGenerationRequest)
    (request_id current_date : String) (oracles : Oracles) (t0 t1 : ℚ) :
    (∀ e, oracles.genResult = .error e →
       process_request request request_id current_date oracles t0 t1 =
         (.error ("Orchestration failed after " ++ fmt2 (t1 - t0) ++ "s: " ++
             ("Code generation failed: " ++ e)), [Stage.generation]) ∧
       aprocess_request request request_id current_date oracles t0 t1 =
         (.error ("Async orchestration failed after " ++ fmt2 (t1 - t0) ++ "s: " ++
             ("Async code generation failed: " ++ e)), [Stage.generation])) ∧
    (∀ g e, oracles.genResult = .ok g → oracles.explResult = .error e →
       process_request request request_id current_date oracles t0 t1 =
         (.error ("Orchestration failed after " ++ fmt2 (t1 - t0) ++ "s: " ++
             ("Line explanation failed: " ++ e)),
          [Stage.generation, Stage.explanation]) ∧
       aprocess_request request request_id current_date oracles t0 t1 =
         (.error ("Async orchestration failed after " ++ fmt2 (t1 - t0) ++ "s: " ++
             ("Async line explanation failed: " ++ e)),
          [Stage.generation, Stage.explanation])) ∧
    (∀ g l e, oracles.genResult = .ok g → oracles.explResult = .ok l →
       oracles.chunkResult = .error e →
       process_request request request_id current_date oracles t0 t1 =
         (.error ("Orchestration failed after " ++ fmt2 (t1 - t0) ++ "s: " ++
             ("Code chunking failed: " ++ e)),
          [Stage.generation, Stage.explanation, Stage.chunking]) ∧
       aprocess_request request request_id current_date oracles t0 t1 =
         (.error ("Async orchestration failed after " ++ fmt2 (t1 - t0) ++ "s: " ++
             ("Async code chunking failed: " ++ e)),
          [Stage.generation, Stage.explanation, Stage.chunking])) := by
  refine ⟨fun e hg => ?_, fun g e hg he => ?_, fun g l e hg he hc => ?_⟩ <;>
    constructor <;>
      simp [process_request, aprocess_request, generate_code, agenerate_code,
        generate_code_ok, agenerate_code_ok, explain_code, aexplain_code, explain_code_ok,
        aexplain_code_ok, chunk_code, achunk_code, *]

/-- Oracles whose very first stage call fails. -/
def wfailOracles : Oracles :=
  { genResult := .error "rate limited"
    explResult := .ok ⟨"", "", [], ""⟩
    chunkResult := .ok ⟨"", "", [], ""⟩ }

/-- C2 witness: with the generation stage failing, both orchestrators stop
after one stage call and produce the single wrapped error message. -/
theorem orchestrator_fail_fast_witness :
    wfailOracles.genResult = Except.error "rate limited" ∧
    (process_request wreq "rid" "d" wfailOracles 0 1 =
       (.error ("Orchestration failed after " ++ fmt2 (1 - 0) ++ "s: " ++
           ("Code generation failed: " ++ "rate limited")), [Stage.generation]) ∧
     aprocess_request wreq "rid" "d" wfailOracles 0 1 =
       (.error ("Async orchestration failed after " ++ fmt2 (1 - 0) ++ "s: " ++
           ("Async code generation failed: " ++ "rate limited")), [Stage.generation])) :=
  ⟨rfl, (orchestrator_fail_fast wreq "rid" "d" wfailOracles 0 1).1 "rate limited" rfl⟩

/-- C7: on every successful run of either orchestrator with non-decreasing
clock readings, `processing_time_seconds` equals the elapsed time from the
reading taken before stage 1 to the reading taken after stage 3, rounded to
two decimal places, and is non-negative. -/
theorem processing_time_measurement (request : CodeGenerationRequest)
    (request_id current_date : String) (oracles : Oracles) (t0 t1 : ℚ)
    (resp : OrchestratorResponse) (hmono : t0 ≤ t1)
    (h : (process_request request request_id current_date oracles t0 t1).1 = .ok resp ∨
         (aprocess_request request request_id current_date oracles t0 t1).1 = .ok resp) :
    resp.processing_time_seconds = round2 (t1 - t0) ∧ 0 ≤ resp.processing_time_seconds := by
  have hpt : resp.processing_time_seconds = round2 (t1 - t0) := by
    rcases hg : oracles.genResult with eg | g <;>
      rcases he : oracles.explResult with ee | l <;>
        rcases hc : oracles.chunkResult with ec | c <;>
          rcases h with h | h <;>
            simp only [process_request, aprocess_request, generate_code_ok, agenerate_code_ok,
              generate_code_err, agenerate_code_err, explain_code_ok, aexplain_code_ok,
              explain_code_err, aexplain_code_err, chunk_code_ok, achunk_code_ok,
              chunk_code_err, achunk_code_err, hg, he, hc] at h <;>
            simp only [reduceCtorEq, Except.ok.injEq] at h <;>
            subst h <;> rfl
  exact ⟨hpt, hpt ▸ round2_nonneg (t1 - t0) (by linarith)⟩

/-- C7 witness: the concrete successful run `wreq`/`woracles` with clock
readings 0 and 1 reports `round2 (1 - 0)`, a non-negative value. -/
theorem processing_time_measurement_witness :
    (0 : ℚ) ≤ 1 ∧
    (process_request wreq "rid" "2025-01-01T00:00:00" woracles 0 1).1 = .ok wresp ∧
    (wresp.processing_time_seconds = round2 (1 - 0) ∧ 0 ≤ wresp.processing_time_seconds) :=
  ⟨zero_le_one, rfl,
   processing_time_measurement wreq "rid" "2025-01-01T00:00:00" woracles 0 1 wresp
     zero_le_one (Or.inl rfl)⟩

/-- C4: input handling of `POST /api/v1/generate`.  A present but
empty/whitespace-only prompt yields a 400 without the orchestrator's outcome
ever mattering (the conclusion holds for every `oracles`); a body lacking
`prompt` is rejected by schema validation with a 422, again for every
`oracles`; and an orchestration failure is wrapped into a 500 whose detail
ends with the orchestration error text. -/
theorem generate_endpoint_input_errors (body : RawBody) (request_id current_date : String)
    (oracles : Oracles) (t0 t1 : ℚ) :
    (∀ p, body.prompt = some p → pyStrip p = "" →
       postGenerate body request_id current_date oracles t0 t1 =
         .httpError 400 "Prompt cannot be empty") ∧
    (body.prompt = none →
       postGenerate body request_id current_date oracles t0 t1 =
         .httpError 422 "Field required") ∧
    (∀ request e, parseRequest body = .ok request → pyStrip request.prompt ≠ "" →
       (aprocess_request request request_id current_date oracles t0 t1).1 = .error e →
       postGenerate body request_id current_date oracles t0 t1 =
         .httpError 500 ("Code generation failed: " ++ e)) := by
  refine ⟨fun p hp hstrip => ?_, fun hp => ?_, fun request e hpar hne hproc => ?_⟩
  · simp [postGenerate, parseRequest, hp, generate_educational_code, hstrip]
  · simp [postGenerate, parseRequest, hp]
  · have hne2 : ¬(request.prompt = "" ∨ pyStrip request.prompt = "") := by
      rintro (h1 | h1)
      · exact hne (by rw [h1]; rfl)
      · exact hne h1
    simp [postGenerate, hpar, generate_educational_code, hne2, hproc]

/-- C4 witness: a whitespace-only prompt gives a 400, a missing prompt a
422, and a failing first stage a 500 carrying the orchestration error. -/
theorem generate_endpoint_input_errors_witness :
    (pyStrip "   " = "" ∧
     postGenerate ⟨some "   ", none, none⟩ "rid" "d" wfailOracles 0 1 =
       .httpError 400 "Prompt cannot be empty") ∧
    postGenerate ⟨none, none, none⟩ "rid" "d" wfailOracles 0 1 =
      .httpError 422 "Field required" ∧
    postGenerate ⟨some "hi", none, none⟩ "rid" "d" wfailOracles 0 1 =
      .httpError 500 ("Code generation failed: " ++
        ("Async orchestration failed after " ++ fmt2 (1 - 0) ++ "s: " ++
          ("Async code generation failed: " ++ "rate limited"))) :=
  ⟨⟨rfl, (generate_endpoint_input_errors ⟨some "   ", none, none⟩ "rid" "d"
      wfailOracles 0 1).1 "   " rfl rfl⟩,
   (generate_endpoint_input_errors ⟨none, none, none⟩ "rid" "d" wfailOracles 0 1).2.1 rfl,
   (generate_endpoint_input_errors ⟨some "hi", none, none⟩ "rid" "d" wfailOracles 0 1).2.2
     ⟨"hi", "python", none⟩ _ rfl (by decide) rfl⟩

/-- Oracles for a run in which only the chunking stage fails. -/
def c3oracles : Oracles :=
  { genResult := .ok ⟨"2025-01-01T00:00:00", "python", "x = 1"⟩
    explResult := .ok ⟨"", "", [⟨1, "x = 1", some "assign"⟩], "assigns x"⟩
    chunkResult := .error "boom" }

lemma fmt2_two : fmt2 (2 - 0) = "2.00" := by
  have h : round (((2 : ℚ) - 0) * 100) = 200 := by norm_num [round_eq]
  simp only [fmt2, h]
  decide

/-- C3 counterexample: with generation and explanation succeeding and the
chunking stage failing with `"boom"`, the endpoint's 500 message is NOT of
the form `"<stage-kind> failed: <underlying message>"` with the stage kind
identifying the failing (chunking) stage: it does not begin with any
chunking identification, and instead begins with `"Code generation
failed: "` — the handler's uniform wrapper — even though the generation
stage succeeded. -/
theorem generate_endpoint_stage_kind_cex :
    postGenerate ⟨some "add two numbers", none, none⟩ "rid" "2025-01-01T00:00:00"
        c3oracles 0 2 =
      .httpError 500
        "Code generation failed: Async orchestration failed after 2.00s: Async code chunking failed: boom" ∧
    c3oracles.genResult = .ok ⟨"2025-01-01T00:00:00", "python", "x = 1"⟩ ∧
    c3oracles.chunkResult = .error "boom" ∧
    List.isPrefixOf "Async code chunking failed: ".data
      "Code generation failed: Async orchestration failed after 2.00s: Async code chunking failed: boom".data = false ∧
    List.isPrefixOf "Code chunking failed: ".data
      "Code generation failed: Async orchestration failed after 2.00s: Async code chunking failed: boom".data = false ∧
    List.isPrefixOf "chunking".data
      "Code generation failed: Async orchestration failed after 2.00s: Async code chunking failed: boom".data = false ∧
    List.isPrefixOf "Code generation failed: ".data
      "Code generation failed: Async orchestration failed after 2.00s: Async code chunking failed: boom".data = true := by
  refine ⟨?_, rfl, rfl, by decide, by decide, by decide, by decide⟩
  have h1 : postGenerate ⟨some "add two numbers", none, none⟩ "rid" "2025-01-01T00:00:00"
      c3oracles 0 2 =
    .httpError 500 ("Code generation failed: " ++
      ("Async orchestration failed after " ++ fmt2 (2 - 0) ++ "s: " ++
        ("Async code chunking failed: " ++ "boom"))) := rfl
  rw [h1, fmt2_two]
  rfl

/-- C3 amended: whenever a stage of a well-formed request fails, the
endpoint responds with a single 500 whose message is
`"Code generation failed: Async orchestration failed after <t>s: <async
stage prefix> failed: <underlying message>"` — it contains a
`"<stage-kind> failed: <underlying message>"` fragment that does identify
the failing stage, but the message is uniformly prefixed with the handler's
`"Code generation failed: "` wrapper and the orchestrator's timing wrapper
regardless of which stage failed. -/
theorem generate_endpoint_stage_error_message (body : RawBody)
    (request : CodeGenerationRequest) (request_id current_date : String)
    (oracles : Oracles) (t0 t1 : ℚ)
    (hpar : parseRequest body = .ok request) (hprompt : pyStrip request.prompt ≠ "") :
    (∀ e, oracles.genResult = .error e →
       postGenerate body request_id current_date oracles t0 t1 =
         .httpError 500 ("Code generation failed: " ++
           ("Async orchestration failed after " ++ fmt2 (t1 - t0) ++ "s: " ++
             ("Async code generation failed: " ++ e)))) ∧
    (∀ g e, oracles.genResult = .ok g → oracles.explResult = .error e →
       postGenerate body request_id current_date oracles t0 t1 =
         .httpError 500 ("Code generation failed: " ++
           ("Async orchestration failed after " ++ fmt2 (t1 - t0) ++ "s: " ++
             ("Async line explanation failed: " ++ e)))) ∧
    (∀ g l e, oracles.genResult = .ok g → oracles.explResult = .ok l →
       oracles.chunkResult = .error e →
       postGenerate body request_id current_date oracles t0 t1 =
         .httpError 500 ("Code generation failed: " ++
           ("Async orchestration failed after " ++ fmt2 (t1 - t0) ++ "s: " ++
             ("Async code chunking failed: " ++ e)))) := by
  have hp1 : request.prompt ≠ "" := fun h1 => hprompt (by rw [h1]; rfl)
  refine ⟨fun e hg => ?_, fun g e hg he => ?_, fun g l e hg he hc => ?_⟩ <;>
    simp [postGenerate, hpar, generate_educational_code, hp1, hprompt, aprocess_request,
      agenerate_code_ok, agenerate_code_err, aexplain_code_ok, aexplain_code_err,
      achunk_code_ok, achunk_code_err, *]

/-- C3 witness (for the amended claim): the concrete chunking-stage failure
produces the single 500 with the uniformly wrapped message. -/
theorem generate_endpoint_stage_error_message_witness :
    pyStrip "add two numbers" ≠ "" ∧
    postGenerate ⟨some "add two numbers", none, none⟩ "rid" "d" c3oracles 0 2 =
      .httpError 500 ("Code generation failed: " ++
        ("Async orchestration failed after " ++ fmt2 (2 - 0) ++ "s: " ++
          ("Async code chunking failed: " ++ "boom"))) :=
  ⟨by decide,
   (generate_endpoint_stage_error_message ⟨some "add two numbers", none, none⟩
       ⟨"add two numbers", "python", none⟩ "rid" "d" c3oracles 0 2 rfl (by decide)).2.2
     ⟨"2025-01-01T00:00:00", "python", "x = 1"⟩
     ⟨"", "", [⟨1, "x = 1", some "assign"⟩], "assigns x"⟩ "boom" rfl rfl rfl⟩

/-- A stage-2 model reply that attaches an explanation to a blank line. -/
def c8oracles : Oracles :=
  { genResult := .ok ⟨"2025-01-01T00:00:00", "python", "x = 1\n\ny = 2"⟩
    explResult := .ok ⟨"json-date", "guess",
      [⟨1, "x = 1", some "assign x"⟩,
       ⟨2, "", some "spurious explanation of a blank line"⟩,
       ⟨3, "y = 2", some "assign y"⟩], "assigns two variables"⟩
    chunkResult := .ok ⟨"", "", [⟨1, 3, "x = 1\n\ny = 2", some "whole program"⟩], ""⟩ }

/-- The blank line carrying a non-null explanation. -/
def c8line : CodeLine := ⟨2, "", some "spurious explanation of a blank line"⟩

/-- The successful response of the `c8oracles` run. -/
def c8resp : OrchestratorResponse :=
  { request_id := "rid"
    generated_code := ⟨"2025-01-01T00:00:00", "python", "x = 1\n\ny = 2"⟩
    line_explanations := ⟨"2025-01-01T00:00:00", "python",
      [⟨1, "x = 1", some "assign x"⟩, c8line, ⟨3, "y = 2", some "assign y"⟩],
      "assigns two variables"⟩
    chunked_code := ⟨"2025-01-01T00:00:00", "python",
      [⟨1, 3, "x = 1\n\ny = 2", some "whole program"⟩], "assigns two variables"⟩
    processing_time_seconds := round2 (1 - 0)
    status := "success" }

/-- C8 counterexample: a successful pipeline run whose response contains a
`CodeLine` with empty (hence whitespace-only after stripping) `line_code`
and a non-null `line_explanation` — the stage passes the model's list
through without enforcing the blank-line discipline. -/
theorem blank_line_explanation_cex :
    (aprocess_request wreq "rid" "2025-01-01T00:00:00" c8oracles 0 1).1 = .ok c8resp ∧
    c8line ∈ c8resp.line_explanations.code ∧
    pyStrip c8line.line_code = "" ∧
    c8line.line_explanation ≠ none := by
  refine ⟨rfl, ?_, rfl, ?_⟩
  · simp [c8resp]
  · simp [c8line]

/-- C8 amended: the blank-line discipline (`line_explanation` null exactly
for empty/whitespace-only `line_code`) is not enforced by the pipeline; it
holds for a successful response's `line_explanations.code` exactly when the
external model's stage-2 reply already satisfied it, since the list is
passed through verbatim. -/
theorem blank_line_discipline_preserved (request : CodeGenerationRequest)
    (request_id current_date : String) (oracles : Oracles) (t0 t1 : ℚ)
    (resp : OrchestratorResponse) (m : LineExplanationOutput)
    (hm : oracles.explResult = .ok m)
    (h : (process_request request request_id current_date oracles t0 t1).1 = .ok resp ∨
         (aprocess_request request request_id current_date oracles t0 t1).1 = .ok resp)
    (hdisc : ∀ cl ∈ m.code,
      (pyStrip cl.line_code = "" → cl.line_explanation = none) ∧
      (pyStrip cl.line_code ≠ "" → cl.line_explanation ≠ none)) :
    ∀ cl ∈ resp.line_explanations.code,
      (pyStrip cl.line_code = "" → cl.line_explanation = none) ∧
      (pyStrip cl.line_code ≠ "" → cl.line_explanation ≠ none) := by
  have hcode : resp.line_explanations.code = m.code := by
    rcases hg : oracles.genResult with eg | g <;>
      rcases hc : oracles.chunkResult with ec | c <;>
        rcases h with h | h <;>
          simp only [process_request, aprocess_request, generate_code_ok, agenerate_code_ok,
            generate_code_err, agenerate_code_err, explain_code_ok, aexplain_code_ok,
            explain_code_err, aexplain_code_err, chunk_code_ok, achunk_code_ok,
            chunk_code_err, achunk_code_err, hg, hm, hc] at h <;>
          simp only [reduceCtorEq, Except.ok.injEq] at h <;>
          subst h <;> rfl
  rw [hcode]
  exact hdisc

/-- C8 witness (for the amended claim): a model reply obeying the
blank-line discipline yields a response obeying it. -/
theorem blank_line_discipline_preserved_witness :
    woracles.explResult = .ok ⟨"model-date", "guess",
      [⟨1, "x = 1", some "assign x"⟩, ⟨2, "y = 2", some "assign y"⟩], "assigns"⟩ ∧
    (∀ cl ∈ wresp.line_explanations.code,
      (pyStrip cl.line_code = "" → cl.line_explanation = none) ∧
      (pyStrip cl.line_code ≠ "" → cl.line_explanation ≠ none)) :=
  ⟨rfl,
   blank_line_discipline_preserved wreq "rid" "2025-01-01T00:00:00" woracles 0 1 wresp
     ⟨"model-date", "guess", [⟨1, "x = 1", some "assign x"⟩, ⟨2, "y = 2", some "assign y"⟩],
      "assigns"⟩ rfl (Or.inl rfl) (by decide)⟩

end Tutor
